import Mathlib

/-
Verification of the vpn-backend tunnel lifecycle coordinator.

Shallow embedding of the repository's data model and operations:
  - models.py              : table schemas (columns and uniqueness declarations)
  - utils/wireguard.py     : IP selection and client-config rendering
  - routes/servers.py      : IP pool population
  - utils/server_manager.py: validated tunnel create (DB transaction semantics)
  - utils/wg_panel_manager.py : panel client ops and the dynamic tunnel manager
  - routes/vpn.py          : dynamic tunnel create/destroy routes
  - utils/connection_monitor.py : cleanup sweep

Machine integers are modelled as Nat/Int; timestamps as Int seconds;
fallible operations return Option or explicit result structures.
-/

set_option maxRecDepth 4096

namespace VpnBackend

/-! ## IPv4 addresses and the IP pool (utils/wireguard.py, routes/servers.py) -/

/-- Dotted-quad rendering of a 32-bit IPv4 address held as a Nat.
Models Python `str(ipaddress.IPv4Address(n))`. -/
def ipStr (n : Nat) : String :=
  toString (n / 16777216 % 256) ++ "." ++ toString (n / 65536 % 256) ++ "." ++
    toString (n / 256 % 256) ++ "." ++ toString (n % 256)

/-- The host addresses of a subnet, in order.  Models Python
`ipaddress.ip_network(subnet).hosts()`: for prefixes up to /30 every address
except the network and broadcast addresses; /31 yields both addresses and
/32 the single address. -/
def hostsOf (network prefixLen : Nat) : List Nat :=
  if prefixLen ≤ 30 then
    (List.range (2 ^ (32 - prefixLen) - 2)).map (fun i => network + 1 + i)
  else if prefixLen = 31 then [network, network + 1]
  else [network]

/-- A dynamically typed Python value, as far as the IP-selection code needs:
either a `str` or an `ipaddress.IPv4Address` object. -/
inductive PyVal where
  | pstr (s : String)
  | paddr (n : Nat)
deriving DecidableEq, Repr

/-- Python `==` on such values: values of different types are never equal
(`str.__eq__` returns NotImplemented on an IPv4Address and the fallback
identity comparison fails), so `pstr _ == paddr _` is always `false`. -/
def pyEq : PyVal → PyVal → Bool
  | .pstr a, .pstr b => a == b
  | .paddr a, .paddr b => a == b
  | _, _ => false

/-- One row of the `ip_allocations` table (models.py `IPAllocation`;
the unused `created_at` column is omitted). -/
structure IPRow where
  id : Nat
  server_id : Nat
  ip_address : String
  is_allocated : Bool
  allocated_to : Option Nat
deriving DecidableEq, Repr

/-- routes/servers.py `populate_ip_pool`: one free allocation row per host
address of the subnet, skipping the gateway; the guard there is
`str(ip) != str(network.network_address + 1)`, a string-to-string
comparison.  Row ids model the autoincrement primary key. -/
def populate_ip_pool (server_id network prefixLen : Nat) : List IPRow :=
  ((hostsOf network prefixLen).filter
      (fun ip => ipStr ip != ipStr (network + 1))).enum.map
    (fun p => ⟨p.1 + 1, server_id, ipStr p.2, false, none⟩)

/-- utils/wireguard.py `get_next_available_ip`: first host address whose
string is not in `allocated_ips` and which passes the gateway guard.  The
source guard is `str(ip) != network.network_address + 1`, comparing a `str`
with an `IPv4Address` object, embedded here by `pyEq` on `PyVal`. -/
def get_next_available_ip (network prefixLen : Nat)
    (allocated_ips : List String) : Option String :=
  ((hostsOf network prefixLen).find? (fun ip =>
      !(allocated_ips.contains (ipStr ip)) &&
        !(pyEq (PyVal.pstr (ipStr ip)) (PyVal.paddr (network + 1))))).map ipStr

/-- The network address of subnet 10.8.0.0/24. -/
def subnet_10_8_0_0 : Nat := 10 * 16777216 + 8 * 65536

/-! ## Connection monitor (utils/connection_monitor.py) -/

/-- One row of the `vpn_configs` table (models.py `VPNConfig`);
`created_at` is a Unix timestamp in seconds. -/
structure VPNRow where
  id : Nat
  user_id : Nat
  server_id : Nat
  public_key : String
  private_key : String
  allocated_ip : String
  config_content : String
  is_active : Bool
  created_at : Int
deriving DecidableEq, Repr

/-- `ConnectionMonitor._is_peer_connected`: a peer is connected iff it has a
recorded handshake newer than the disconnection threshold. -/
def is_peer_connected (now threshold : Int) (last_handshake : Option Int) : Bool :=
  match last_handshake with
  | none => false
  | some t => now - t < threshold

/-- The monitor's `disconnection_threshold` default (300 seconds). -/
def disconnection_threshold : Int := 300

/-- Whether `ConnectionMonitor.cleanup_disconnected_peers` destroys the
given active config: the peer is absent or disconnected, the config is
older than the threshold, and either its last handshake is older than the
threshold or (with no handshake record) the config is older than twice the
threshold.  `peers` maps public keys to optional last-handshake times. -/
def cleanupDestroys (now threshold : Int) (peers : List (String × Option Int))
    (c : VPNRow) : Bool :=
  let ps := (peers.find? (fun p => p.1 == c.public_key)).map (fun p => p.2)
  let connected := match ps with
    | some hs => is_peer_connected now threshold hs
    | none => false
  if ps.isNone || !connected then
    if now - c.created_at > threshold then
      match ps with
      | some (some t) => now - t > threshold
      | some none => now - c.created_at > threshold * 2
      | none => now - c.created_at > threshold * 2
    else false
  else false

/-- `ConnectionMonitor.cleanup_disconnected_peers`: the active configs the
sweep destroys (it queries active configs and calls the destroy path on
each one selected by the nested disconnection checks). -/
def cleanup_disconnected_peers (now threshold : Int) (configs : List VPNRow)
    (peers : List (String × Option Int)) : List VPNRow :=
  (configs.filter (fun c => c.is_active)).filter (cleanupDestroys now threshold peers)

/-! ## Client configuration rendering (utils/wireguard.py) -/

/-- The character for a decimal digit. -/
def digitChar10 (d : Nat) : Char :=
  if d = 0 then '0' else if d = 1 then '1' else if d = 2 then '2'
  else if d = 3 then '3' else if d = 4 then '4' else if d = 5 then '5'
  else if d = 6 then '6' else if d = 7 then '7' else if d = 8 then '8'
  else if d = 9 then '9' else '*'

/-- The decimal value of a digit character (10 for non-digits). -/
def digitVal10 (c : Char) : Nat :=
  if c = '0' then 0 else if c = '1' then 1 else if c = '2' then 2
  else if c = '3' then 3 else if c = '4' then 4 else if c = '5' then 5
  else if c = '6' then 6 else if c = '7' then 7 else if c = '8' then 8
  else if c = '9' then 9 else 10

/-- Little-endian decimal digits with explicit fuel (so that concrete
values reduce in the kernel); `decDigits n` agrees with `Nat.digits 10 n`. -/
def decDigitsAux : Nat → Nat → List Nat
  | 0, _ => []
  | _ + 1, 0 => []
  | fuel + 1, n + 1 => (n + 1) % 10 :: decDigitsAux fuel ((n + 1) / 10)

/-- Little-endian decimal digits of a Nat. -/
def decDigits (n : Nat) : List Nat := decDigitsAux n n

/-- Decimal rendering of a Nat; models Python `str(int)` as used by the
f-string port interpolation. -/
def natDecimal (n : Nat) : String :=
  if n = 0 then "0"
  else String.mk ((decDigits n).reverse.map digitChar10)

/-- config.py `settings.VPN_DNS` default. -/
def VPN_DNS : String := "1.1.1.1"

/-- The lines of the client configuration text rendered by
utils/wireguard.py `create_client_config` (the trailing empty string is
the empty final segment produced by the f-string's trailing newline). -/
def configLines (private_key allocated_ip server_public_key
    server_preshared_key server_endpoint : String) (server_port : Nat) :
    List String :=
  ["[Interface]",
   "PrivateKey = " ++ private_key,
   "Address = " ++ allocated_ip ++ "/24",
   "DNS = " ++ VPN_DNS,
   "",
   "[Peer]",
   "PublicKey = " ++ server_public_key,
   "PresharedKey = " ++ server_preshared_key,
   "AllowedIPs = 0.0.0.0/0, ::/0",
   "PersistentKeepalive = 25",
   "Endpoint = " ++ server_endpoint ++ ":" ++ natDecimal server_port,
   ""]

/-- Join lines with newline separators (no trailing separator). -/
def joinLines : List String → String
  | [] => ""
  | [l] => l
  | l :: ls => l ++ "\n" ++ joinLines ls

/-- utils/wireguard.py `create_client_config`: the rendered client
configuration text. -/
def create_client_config (private_key allocated_ip server_public_key
    server_preshared_key server_endpoint : String) (server_port : Nat) :
    String :=
  joinLines (configLines private_key allocated_ip server_public_key
    server_preshared_key server_endpoint server_port)

/-- Split a character list at newlines; n newlines yield n+1 segments
(Python `str.split("\n")` semantics). -/
def splitLines : List Char → List (List Char)
  | [] => [[]]
  | c :: cs =>
    if c = '\n' then [] :: splitLines cs
    else
      match splitLines cs with
      | [] => [[c]]
      | l :: ls => (c :: l) :: ls

/-- Parse a non-empty all-digit character list as a decimal Nat. -/
def parseNatDigits (cs : List Char) : Option Nat :=
  if cs.isEmpty then none
  else if cs.all (fun c => decide (digitVal10 c < 10)) then
    some (Nat.ofDigits 10 ((cs.map digitVal10).reverse))
  else none

/-- Modelled from the spec: the repository renders client configuration
text but contains no parser for it; this parser follows the config text
format of the spec's external-interface section.  It splits the text into
its twelve lines, strips the `PrivateKey = `, `Address = ` (dropping the
`/24` suffix), `PublicKey = `, `PresharedKey = ` and `Endpoint = `
prefixes, and splits the endpoint at its last colon into host and decimal
port. -/
def parse_client_config (cfg : String) :
    Option (String × String × String × String × String × Nat) :=
  match splitLines cfg.data with
  | [_, l1, l2, _, _, _, l6, l7, _, _, l10, _] =>
    let pk := l1.drop 13
    let addr := l2.drop 10
    let ip := addr.take (addr.length - 3)
    let spk := l6.drop 12
    let psk := l7.drop 15
    let rest := l10.drop 11
    let rrev := rest.reverse
    let portDigits := (rrev.takeWhile (fun c => c != ':')).reverse
    let ep := ((rrev.dropWhile (fun c => c != ':')).drop 1).reverse
    match parseNatDigits portDigits with
    | some p =>
      some (String.mk pk, String.mk ip, String.mk spk, String.mk psk,
        String.mk ep, p)
    | none => none
  | _ => none

/-! ## Schema declarations (models.py) -/

/-- A column declaration: its name and whether `unique=True` or
`primary_key=True` is declared on it in models.py. -/
structure ColumnSpec where
  name : String
  unique : Bool
  primaryKey : Bool
deriving DecidableEq, Repr

/-- The `users` table columns as declared in models.py. -/
def users_columns : List ColumnSpec :=
  [⟨"id", false, true⟩, ⟨"username", true, false⟩, ⟨"email", true, false⟩,
   ⟨"hashed_password", false, false⟩, ⟨"is_active", false, false⟩,
   ⟨"is_admin", false, false⟩, ⟨"created_at", false, false⟩]

/-- The `vpn_configs` table columns as declared in models.py: no column
carries `unique=True`. -/
def vpn_configs_columns : List ColumnSpec :=
  [⟨"id", false, true⟩, ⟨"user_id", false, false⟩, ⟨"server_id", false, false⟩,
   ⟨"public_key", false, false⟩, ⟨"private_key", false, false⟩,
   ⟨"allocated_ip", false, false⟩, ⟨"config_content", false, false⟩,
   ⟨"is_active", false, false⟩, ⟨"created_at", false, false⟩]

/-- Multi-column uniqueness constraints declared on `vpn_configs`:
models.py declares no `__table_args__`/`UniqueConstraint` on any table,
in particular none on the (user_id, server_id) pair. -/
def vpn_configs_table_constraints : List (List String) := []

/-! ## Validated tunnel create (utils/server_manager.py) -/

/-- One row of the `servers` table (models.py `Server`; the columns the
tunnel paths do not read are omitted). -/
structure Server where
  id : Nat
  endpoint : String
  port : Nat
  public_key : String
  private_key : String
  preshared_key : String
  subnet : String
  panel_url : Option String
  is_active : Bool
deriving DecidableEq, Repr

/-- The relational state the tunnel paths touch. -/
structure DBState where
  vpnConfigs : List VPNRow
  ipAllocations : List IPRow
deriving DecidableEq, Repr

/-- The active configs for a (user, server) pair. -/
def activeConfigsFor (rows : List VPNRow) (u s : Nat) : List VPNRow :=
  rows.filter (fun r => r.user_id == u && r.server_id == s && r.is_active)

/-- The next autoincrement primary key for `vpn_configs`. -/
def freshConfigId (db : DBState) : Nat :=
  db.vpnConfigs.foldl (fun m r => max m r.id) 0 + 1

/-- Outcome of `ServerManager.create_tunnel_with_validation`. -/
structure CreateTunnelResult where
  ok : Bool
  message : String
  db : DBState
  created : Option VPNRow
deriving Repr

/-- `ServerManager.create_tunnel_with_validation`.  External effects are
parameters: `healthOk` is the health probe outcome, `peerAddOk` the
peer-registration outcome, `verifyOk` the `verify_peer_added` outcome.
An unhealthy probe only blocks servers without a panel URL.  The first
free allocation for the server is claimed.  SQLAlchemy assigns the new
row's primary key only at flush: the source line
`available_ip.allocated_to = vpn_config.id` runs before any flush and so
stores the still-unset attribute, i.e. None.  The commit precedes the
verification step, and `db.rollback()` after a commit rolls back nothing,
so the committed rows persist even when verification fails. -/
def create_tunnel_with_validation (db : DBState) (server : Server)
    (user_id : Nat) (private_key public_key : String) (now : Int)
    (healthOk peerAddOk verifyOk : Bool) : CreateTunnelResult :=
  if !healthOk && server.panel_url.isNone then
    ⟨false, "Server is not healthy", db, none⟩
  else
    match db.ipAllocations.find?
        (fun a => a.server_id == server.id && !a.is_allocated) with
    | none => ⟨false, "No available IP addresses for this server", db, none⟩
    | some available_ip =>
      if !peerAddOk then
        ⟨false, "Failed to add peer to WireGuard server", db, none⟩
      else
        let config_content := create_client_config private_key
          available_ip.ip_address server.public_key server.preshared_key
          server.endpoint server.port
        let backref : Option Nat := none
        let newId := freshConfigId db
        let row : VPNRow := ⟨newId, user_id, server.id, public_key,
          private_key, available_ip.ip_address, config_content, true, now⟩
        let db' : DBState := ⟨db.vpnConfigs ++ [row],
          db.ipAllocations.map (fun a =>
            if a.id == available_ip.id then
              ⟨a.id, a.server_id, a.ip_address, true, backref⟩
            else a)⟩
        if server.panel_url.isNone && !verifyOk then
          ⟨false, "Peer was not successfully added to server", db', none⟩
        else ⟨true, "Tunnel created successfully", db', some row⟩

/-! ## Panel client calls (utils/wg_panel_manager.py `WgEasyManager`) -/

/-- One scripted HTTP response from the panel: its status code and, for
endpoints returning a JSON body, the body's `success` field. -/
structure PanelResp where
  status : Nat
  successBody : Bool
deriving DecidableEq, Repr

/-- Outcome of a panel client call: the returned (success, message) pair
and how many HTTP requests were made to the client endpoint. -/
structure PanelCallResult where
  ok : Bool
  message : String
  requests : Nat
deriving DecidableEq, Repr

/-- `WgEasyManager.delete_client` over scripted responses.  `authOk` is the
outcome `_authenticate` would have.  On 200 the JSON `success` field is
checked; on 404 the call fails with "Client not found"; on 401 the client
re-authenticates once and, if that succeeds, repeats the request once,
accepting any 200 (the retry does not re-check the body). -/
def delete_client (authenticated authOk : Bool) (responses : List PanelResp) :
    PanelCallResult :=
  if !authenticated && !authOk then ⟨false, "Authentication failed", 0⟩
  else
    let r := responses.headD ⟨500, false⟩
    if r.status == 200 then
      if r.successBody then ⟨true, "Client deleted successfully", 1⟩
      else ⟨false, "Client deletion failed", 1⟩
    else if r.status == 404 then ⟨false, "Client not found", 1⟩
    else if r.status == 401 then
      if authOk then
        let r2 := (responses.drop 1).headD ⟨500, false⟩
        if r2.status == 200 then
          ⟨true, "Client deleted successfully after re-auth", 2⟩
        else ⟨false, "Authentication failed", 2⟩
      else ⟨false, "Authentication failed", 1⟩
    else ⟨false, "Failed to delete client: HTTP " ++ natDecimal r.status, 1⟩

/-- `WgEasyManager.enable_client` over scripted responses: 204 succeeds,
404 fails with "Client not found", and any other status — including 401 —
falls through to the generic failure branch; there is no re-authentication
and no retry. -/
def enable_client (authenticated authOk : Bool) (responses : List PanelResp) :
    PanelCallResult :=
  if !authenticated && !authOk then ⟨false, "Authentication failed", 0⟩
  else
    let r := responses.headD ⟨500, false⟩
    if r.status == 204 then ⟨true, "Client enabled successfully", 1⟩
    else if r.status == 404 then ⟨false, "Client not found", 1⟩
    else ⟨false, "Failed to enable client: HTTP " ++ natDecimal r.status, 1⟩

/-! ## Dynamic tunnel manager (utils/wg_panel_manager.py
`DynamicTunnelManager`) and its routes (routes/vpn.py) -/

/-- A client record on the remote panel (`WgEasyClient`; timestamps
omitted). -/
structure Client where
  id : String
  name : String
  enabled : Bool
  address : String
  publicKey : String
deriving DecidableEq, Repr

/-- Lookup in the in-memory `active_tunnels` dict (user id → client id). -/
def idxLookup (idx : List (Nat × String)) (u : Nat) : Option String :=
  (idx.find? (fun p => p.1 == u)).map (fun p => p.2)

/-- `del self.active_tunnels[user_id]`. -/
def idxErase (idx : List (Nat × String)) (u : Nat) : List (Nat × String) :=
  idx.filter (fun p => p.1 != u)

/-- `self.active_tunnels[user_id] = client_id`. -/
def idxInsert (idx : List (Nat × String)) (u : Nat) (cid : String) :
    List (Nat × String) :=
  idxErase idx u ++ [(u, cid)]

/-- ASCII lowering, modelling Python `str.lower()` on the ASCII messages
involved. -/
def strLower (s : String) : String := String.mk (s.data.map Char.toLower)

/-- Python's `pat in s` substring test. -/
def listContainsSub (pat : List Char) : List Char → Bool
  | [] => pat.isEmpty
  | c :: cs => pat.isPrefixOf (c :: cs) || listContainsSub pat cs

/-- The outcomes of the panel calls one `DynamicTunnelManager` operation
makes: the live client list (`none` models a failed `list_clients`), the
`create_client` outcome, and the config/QR fetch outcomes. -/
structure PanelScript where
  listResult : Option (List Client)
  createOk : Bool
  createClient : Option Client
  configResult : Option String
  qrResult : Option String
deriving Repr

/-- Outcome of `DynamicTunnelManager.get_user_tunnel_status`. -/
structure StatusResult where
  hasTunnel : Bool
  client : Option Client
  message : String
  index : List (Nat × String)
deriving Repr

/-- `DynamicTunnelManager.get_user_tunnel_status`: no index entry reports
absent; with an entry the live client list is consulted, and a stale entry
(client id no longer listed) is deleted from the index before reporting
absent. -/
def get_user_tunnel_status (idx : List (Nat × String))
    (listResult : Option (List Client)) (u : Nat) : StatusResult :=
  match idxLookup idx u with
  | none => ⟨false, none, "No active tunnel", idx⟩
  | some cid =>
    match listResult with
    | none => ⟨false, none, "Error checking tunnel status", idx⟩
    | some clients =>
      match clients.find? (fun c => c.id == cid) with
      | none => ⟨false, none, "Tunnel was removed externally", idxErase idx u⟩
      | some c => ⟨true, some c, "Tunnel is active", idx⟩

/-- Outcome of `DynamicTunnelManager.create_user_tunnel`, including the
compensating deletions issued. -/
structure CreateUserTunnelResult where
  ok : Bool
  client : Option Client
  config : Option String
  message : String
  index : List (Nat × String)
  deletedClients : List String
deriving Repr

/-- `DynamicTunnelManager.create_user_tunnel`.  An existing index entry
whose client is still listed aborts with "User already has an active
tunnel"; a stale entry (or a failed list call) is dropped and creation
proceeds.  A successful `create_client` that returned no client object
(its re-auth branch returns `(True, None, ...)`) raises on `client.id` and
the handler reports failure with no compensation.  If fetching the
configuration fails, the created client is deleted as compensation.  The
index entry is written only after client creation and config retrieval
both succeeded. -/
def create_user_tunnel (idx : List (Nat × String)) (sc : PanelScript)
    (u : Nat) : CreateUserTunnelResult :=
  let exitEarly :=
    match idxLookup idx u with
    | some cid =>
      match sc.listResult with
      | some clients => clients.any (fun c => c.id == cid)
      | none => false
    | none => false
  if exitEarly then
    ⟨false, none, none, "User already has an active tunnel", idx, []⟩
  else
    let idx1 := match idxLookup idx u with
      | some _ => idxErase idx u
      | none => idx
    if !sc.createOk then
      ⟨false, none, none, "create_client failed", idx1, []⟩
    else
      match sc.createClient with
      | none => ⟨false, none, none, "Error creating tunnel", idx1, []⟩
      | some client =>
        match sc.configResult with
        | none =>
          ⟨false, none, none, "Failed to get configuration", idx1, [client.id]⟩
        | some cfg =>
          ⟨true, some client, some cfg, "Tunnel created successfully",
            idxInsert idx1 u client.id, []⟩

/-- Outcome of `DynamicTunnelManager.destroy_user_tunnel`. -/
structure DestroyResult where
  ok : Bool
  message : String
  index : List (Nat × String)
deriving DecidableEq, Repr

/-- `DynamicTunnelManager.destroy_user_tunnel`.  `panelIds` are the client
ids present on the panel; `deleteHttpOk` scripts whether a delete request
for a present client succeeds.  A missing index entry is an error; a
present client is deleted; a client already absent on the panel yields
`delete_client`'s 404 message "Client not found", which the manager folds
into idempotent success, dropping the index entry. -/
def destroy_user_tunnel (idx : List (Nat × String)) (panelIds : List String)
    (deleteHttpOk : Bool) (u : Nat) : DestroyResult :=
  match idxLookup idx u with
  | none => ⟨false, "No active tunnel found for user", idx⟩
  | some cid =>
    if panelIds.contains cid then
      if deleteHttpOk then ⟨true, "Tunnel destroyed successfully", idxErase idx u⟩
      else ⟨false, "Failed to delete client: HTTP 500", idx⟩
    else ⟨true, "Tunnel was already removed", idxErase idx u⟩

/-- The configs the `vpn_configs` table holds for a user with
`is_active`, regardless of server. -/
def activeConfigsForUser (rows : List VPNRow) (u : Nat) : List VPNRow :=
  rows.filter (fun r => r.user_id == u && r.is_active)

/-- routes/vpn.py `destroy_dynamic_tunnel` deactivates the first active
config found for the user. -/
def deactivateFirstActive : List VPNRow → Nat → List VPNRow
  | [], _ => []
  | r :: rs, u =>
    if r.user_id == u && r.is_active then
      ⟨r.id, r.user_id, r.server_id, r.public_key, r.private_key,
        r.allocated_ip, r.config_content, false, r.created_at⟩ :: rs
    else r :: deactivateFirstActive rs u

/-- Outcome of the destroy route: `httpOk = false` models the raised
HTTP 500. -/
structure RouteDestroyResult where
  httpOk : Bool
  db : List VPNRow
  index : List (Nat × String)
deriving Repr

/-- routes/vpn.py `destroy_dynamic_tunnel`: calls the manager's destroy;
raises 500 only when that fails with a message not containing
"no active tunnel" (case-insensitively); otherwise deactivates the user's
first active DB config and returns success. -/
def destroy_dynamic_tunnel (db : List VPNRow) (idx : List (Nat × String))
    (panelIds : List String) (deleteHttpOk : Bool) (u : Nat) :
    RouteDestroyResult :=
  let d := destroy_user_tunnel idx panelIds deleteHttpOk u
  if !d.ok && !(listContainsSub "no active tunnel".data (strLower d.message).data) then
    ⟨false, db, d.index⟩
  else
    ⟨true, deactivateFirstActive db u, d.index⟩

/-- The next autoincrement primary key over a row list. -/
def freshRowId (rows : List VPNRow) : Nat :=
  rows.foldl (fun m r => max m r.id) 0 + 1

/-- Outcome of the create route: HTTP status (200 success, 500 failure;
the route has no 409 conflict path), whether the response reported an
already-existing tunnel, and the resulting DB rows and index. -/
structure RouteCreateResult where
  httpStatus : Nat
  alreadyExisting : Bool
  db : List VPNRow
  index : List (Nat × String)
deriving Repr

/-- routes/vpn.py `create_dynamic_tunnel`: consults only
`get_user_tunnel_status` (in-memory index reconciled against the panel,
never the DB) and returns a 200 "Active tunnel already exists" response
when it reports present; otherwise creates a tunnel through the manager
and on success inserts a new active `vpn_configs` row with `server_id` 1
and the panel-reported key and address. -/
def create_dynamic_tunnel (db : List VPNRow) (idx : List (Nat × String))
    (sc : PanelScript) (u : Nat) (now : Int) : RouteCreateResult :=
  let st := get_user_tunnel_status idx sc.listResult u
  if st.hasTunnel then ⟨200, true, db, st.index⟩
  else
    let cr := create_user_tunnel st.index sc u
    if !cr.ok then ⟨500, false, db, cr.index⟩
    else
      let c := cr.client.getD ⟨"", "", true, "", ""⟩
      let row : VPNRow := ⟨freshRowId db, u, 1, c.publicKey,
        "managed_by_wg_easy", c.address, cr.config.getD "", true, now⟩
      ⟨200, false, db ++ [row], cr.index⟩

/-! ## Theorems -/

/-- C4: populating 10.8.0.0/24 yields 253 allocation rows (network address
and gateway excluded), yet `get_next_available_ip` on the same subnet with
nothing allocated returns the gateway 10.8.0.1: its gateway guard compares
a `str` with an `IPv4Address` object and so never excludes anything. -/
theorem populate_excludes_gateway_but_next_ip_returns_it :
    (populate_ip_pool 1 subnet_10_8_0_0 24).length = 253 ∧
    get_next_available_ip subnet_10_8_0_0 24 [] = some "10.8.0.1" :=
  ⟨by rfl, by rfl⟩

/-- C8: the cleanup sweep never destroys a tunnel created less than
`threshold` seconds before the sweep runs, even if its peer has never
recorded a handshake. -/
theorem cleanup_never_destroys_fresh_tunnel
    (now threshold : Int) (configs : List VPNRow)
    (peers : List (String × Option Int)) (c : VPNRow)
    (hfresh : now - c.created_at < threshold) :
    c ∉ cleanup_disconnected_peers now threshold configs peers := by
  intro hmem
  have h2 := (List.mem_filter.mp hmem).2
  simp only [cleanupDestroys] at h2
  split at h2
  · split at h2
    · omega
    · exact absurd h2 (by simp)
  · exact absurd h2 (by simp)

/-- Witness for C8 at a concrete input: a tunnel created at time 0 with no
handshake record is not destroyed by a sweep at time 100 with the default
300-second threshold. -/
theorem cleanup_never_destroys_fresh_tunnel_witness :
    (100 : Int) - 0 < 300 ∧
    (⟨1, 1, 1, "pk", "sk", "10.8.0.2", "cfg", true, 0⟩ : VPNRow) ∉
      cleanup_disconnected_peers 100 300
        [⟨1, 1, 1, "pk", "sk", "10.8.0.2", "cfg", true, 0⟩] [] :=
  ⟨by decide,
    cleanup_never_destroys_fresh_tunnel 100 300
      [⟨1, 1, 1, "pk", "sk", "10.8.0.2", "cfg", true, 0⟩] []
      ⟨1, 1, 1, "pk", "sk", "10.8.0.2", "cfg", true, 0⟩ (by decide)⟩

/-- C1 counterexample: the claimed persistence-layer uniqueness does not
exist and the at-most-one-active invariant fails at a reachable state.
The `vpn_configs` schema declares no uniqueness (single- or multi-column)
on the (user, server) pair, and running the validated create twice for the
same pair — it performs no duplicate pre-check — yields a state with two
active rows for (user 1, server 1). -/
theorem no_unique_constraint_two_active_rows_reachable :
    (vpn_configs_columns.filter (fun c => c.unique)) = [] ∧
    vpn_configs_table_constraints = [] ∧
    (activeConfigsFor
      (create_tunnel_with_validation
        (create_tunnel_with_validation
          ⟨[], [⟨1, 1, "10.8.0.2", false, none⟩, ⟨2, 1, "10.8.0.3", false, none⟩]⟩
          ⟨1, "vpn.example.com", 51820, "SPK", "SSK", "PSH", "10.8.0.0/24",
            some "http://panel:51821", true⟩
          1 "key1" "pub1" 0 true true true).db
        ⟨1, "vpn.example.com", 51820, "SPK", "SSK", "PSH", "10.8.0.0/24",
          some "http://panel:51821", true⟩
        1 "key2" "pub2" 0 true true true).db.vpnConfigs 1 1).length = 2 :=
  ⟨rfl, rfl, by rfl⟩

/-- C1 amended: uniqueness of the active (user, server) pair has no
persistence-layer constraint — the `vpn_configs` table declares none — and
the validated create path performs no duplicate pre-check either: for a
panel-managed server with a free allocation it succeeds regardless of the
existing rows, so only application-level pre-checks outside this path keep
the pair unique. -/
theorem create_has_no_duplicate_guard (db : DBState) (server : Server)
    (u : Nat) (priv pub : String) (now : Int)
    (hpanel : server.panel_url.isSome)
    (hip : (db.ipAllocations.find?
      (fun a => a.server_id == server.id && !a.is_allocated)).isSome) :
    (vpn_configs_columns.filter (fun c => c.unique)) = [] ∧
    (create_tunnel_with_validation db server u priv pub now true true true).ok
      = true := by
  refine ⟨rfl, ?_⟩
  unfold create_tunnel_with_validation
  obtain ⟨a, ha⟩ := Option.isSome_iff_exists.mp hip
  rw [ha]
  have hn : server.panel_url.isNone = false := by
    cases h : server.panel_url with
    | none => rw [h] at hpanel; simp at hpanel
    | some v => simp [Option.isNone]
  simp [hn]

/-- Witness for the C1 amended theorem at a concrete input: a panel-managed
server with one free allocation and an existing active row for the same
pair; the create still reports success. -/
theorem create_has_no_duplicate_guard_witness :
    ((⟨1, "vpn.example.com", 51820, "SPK", "SSK", "PSH", "10.8.0.0/24",
        some "http://panel:51821", true⟩ : Server)).panel_url.isSome ∧
    (((⟨[⟨1, 1, 1, "p0", "k0", "10.8.0.2", "c0", true, 0⟩],
        [⟨1, 1, "10.8.0.3", false, none⟩]⟩ : DBState)).ipAllocations.find?
      (fun a => a.server_id == 1 && !a.is_allocated)).isSome ∧
    ((vpn_configs_columns.filter (fun c => c.unique)) = [] ∧
      (create_tunnel_with_validation
        ⟨[⟨1, 1, 1, "p0", "k0", "10.8.0.2", "c0", true, 0⟩],
          [⟨1, 1, "10.8.0.3", false, none⟩]⟩
        ⟨1, "vpn.example.com", 51820, "SPK", "SSK", "PSH", "10.8.0.0/24",
          some "http://panel:51821", true⟩
        1 "key2" "pub2" 0 true true true).ok = true) :=
  ⟨by decide, by decide,
    create_has_no_duplicate_guard
      ⟨[⟨1, 1, 1, "p0", "k0", "10.8.0.2", "c0", true, 0⟩],
        [⟨1, 1, "10.8.0.3", false, none⟩]⟩
      ⟨1, "vpn.example.com", 51820, "SPK", "SSK", "PSH", "10.8.0.0/24",
        some "http://panel:51821", true⟩
      1 "key2" "pub2" 0 (by decide) (by decide)⟩

/-- C3: evaluating the validated create at a concrete input: one free
allocation 10.8.0.2 for panel-managed server 1, user 1, empty config
table.  The create reports success and exactly one active row (id 1) for
the pair exists afterwards, and the consumed allocation is marked taken —
but its `allocated_to` back-reference is None, not 1: the source assigns
`available_ip.allocated_to = vpn_config.id` before the new row is flushed,
when the id attribute is still None. -/
theorem create_marks_ip_taken_but_back_reference_is_null :
    ((create_tunnel_with_validation ⟨[], [⟨1, 1, "10.8.0.2", false, none⟩]⟩
        ⟨1, "vpn.example.com", 51820, "SPK", "SSK", "PSH", "10.8.0.0/24",
          some "http://panel:51821", true⟩
        1 "CPRIV" "CPUB" 1000 true true true).ok = true) ∧
    ((create_tunnel_with_validation ⟨[], [⟨1, 1, "10.8.0.2", false, none⟩]⟩
        ⟨1, "vpn.example.com", 51820, "SPK", "SSK", "PSH", "10.8.0.0/24",
          some "http://panel:51821", true⟩
        1 "CPRIV" "CPUB" 1000 true true
        true).db.vpnConfigs.map (fun r => (r.id, r.user_id, r.server_id, r.is_active))
      = [(1, 1, 1, true)]) ∧
    ((create_tunnel_with_validation ⟨[], [⟨1, 1, "10.8.0.2", false, none⟩]⟩
        ⟨1, "vpn.example.com", 51820, "SPK", "SSK", "PSH", "10.8.0.0/24",
          some "http://panel:51821", true⟩
        1 "CPRIV" "CPUB" 1000 true true true).db.ipAllocations
      = [⟨1, 1, "10.8.0.2", true, none⟩]) :=
  ⟨by rfl, by rfl, by rfl⟩

/-- Deleting a user's entry leaves no index entry for that user. -/
theorem idxLookup_idxErase (idx : List (Nat × String)) (u : Nat) :
    idxLookup (idxErase idx u) u = none := by
  have h : (idxErase idx u).find? (fun p => p.1 == u) = none := by
    rw [List.find?_eq_none]
    intro x hx
    have hmem := (List.mem_filter.mp hx).2
    have hne : x.1 ≠ u := by simpa using hmem
    simp [hne]
  simp [idxLookup, h]

/-- If a user has at most one active config, deactivating the first one
leaves none. -/
theorem activeConfigsForUser_deactivateFirst (rows : List VPNRow) (u : Nat)
    (h : (activeConfigsForUser rows u).length ≤ 1) :
    activeConfigsForUser (deactivateFirstActive rows u) u = [] := by
  induction rows with
  | nil => rfl
  | cons r rs ih =>
    by_cases hr : (r.user_id == u && r.is_active) = true
    · simp only [deactivateFirstActive, if_pos hr]
      simp only [activeConfigsForUser, List.filter_cons] at h ⊢
      rw [if_pos hr] at h
      have hnil : (rs.filter (fun x => x.user_id == u && x.is_active)) = [] := by
        have : (rs.filter (fun x => x.user_id == u && x.is_active)).length = 0 := by
          simp only [List.length_cons] at h
          omega
        exact List.length_eq_zero.mp this
      simp [hnil]
    · simp only [deactivateFirstActive, if_neg hr]
      simp only [activeConfigsForUser, List.filter_cons] at h ⊢
      rw [if_neg hr] at h
      rw [if_neg hr]
      exact ih h

/-- C6 counterexample: faced with an authorization failure from a panel
that would accept the retried call after re-authentication, `enable_client`
surfaces failure after a single request — no re-authentication, no retry —
while `delete_client` under the same script re-authenticates and retries
once, succeeding with two requests. -/
theorem enable_does_not_retry_after_auth_failure :
    enable_client true true [⟨401, false⟩, ⟨204, false⟩]
      = ⟨false, "Failed to enable client: HTTP 401", 1⟩ ∧
    delete_client true true [⟨401, false⟩, ⟨200, true⟩]
      = ⟨true, "Client deleted successfully after re-auth", 2⟩ :=
  ⟨rfl, rfl⟩

/-- C6 amended: `delete_client` (like the list/create/config/QR calls)
re-authenticates and retries exactly once on a 401 — two requests, never
more — while `enable_client` (like `disable_client`) never makes a second
request at all: it surfaces any authorization failure immediately. -/
theorem panel_retry_discipline :
    (∀ (b : Bool) (r2 : PanelResp) (rest : List PanelResp),
      (delete_client true true (⟨401, b⟩ :: r2 :: rest)).requests = 2) ∧
    (∀ (authenticated authOk : Bool) (responses : List PanelResp),
      (delete_client authenticated authOk responses).requests ≤ 2 ∧
      (enable_client authenticated authOk responses).requests ≤ 1) := by
  constructor
  · intro b r2 rest
    cases h : (r2.status == 200) <;> simp [delete_client, h]
  · intro authenticated authOk responses
    constructor
    · unfold delete_client
      dsimp only
      repeat' split
      all_goals simp
    · unfold enable_client
      dsimp only
      repeat' split
      all_goals simp

/-- C5: invoking the destroy route for a user whose tunnel is absent from
the in-memory index, or whose panel client was already deleted remotely,
returns success (not an error) and leaves no index entry and no active DB
config for that user (assuming the DB holds at most one active config for
the user, as a single tunnel implies). -/
theorem destroy_absent_or_stale_is_noop_success (db : List VPNRow)
    (idx : List (Nat × String)) (panelIds : List String) (deleteHttpOk : Bool)
    (u : Nat)
    (habsent : ((idxLookup idx u).all (fun cid => !panelIds.contains cid)) = true)
    (hdb : (activeConfigsForUser db u).length ≤ 1) :
    (destroy_dynamic_tunnel db idx panelIds deleteHttpOk u).httpOk = true ∧
    idxLookup (destroy_dynamic_tunnel db idx panelIds deleteHttpOk u).index u
      = none ∧
    activeConfigsForUser
      (destroy_dynamic_tunnel db idx panelIds deleteHttpOk u).db u = [] := by
  cases hidx : idxLookup idx u with
  | none =>
    have hd : destroy_user_tunnel idx panelIds deleteHttpOk u =
        ⟨false, "No active tunnel found for user", idx⟩ := by
      unfold destroy_user_tunnel; rw [hidx]
    have hroute : destroy_dynamic_tunnel db idx panelIds deleteHttpOk u =
        ⟨true, deactivateFirstActive db u, idx⟩ := by
      unfold destroy_dynamic_tunnel
      rw [hd]
      rfl
    rw [hroute]
    exact ⟨rfl, hidx, activeConfigsForUser_deactivateFirst db u hdb⟩
  | some cid =>
    rw [hidx] at habsent
    have hnm : cid ∉ panelIds := by simpa using habsent
    have hd : destroy_user_tunnel idx panelIds deleteHttpOk u =
        ⟨true, "Tunnel was already removed", idxErase idx u⟩ := by
      unfold destroy_user_tunnel
      rw [hidx]
      simp [hnm]
    have hroute : destroy_dynamic_tunnel db idx panelIds deleteHttpOk u =
        ⟨true, deactivateFirstActive db u, idxErase idx u⟩ := by
      unfold destroy_dynamic_tunnel
      rw [hd]
      rfl
    rw [hroute]
    exact ⟨rfl, idxLookup_idxErase idx u,
      activeConfigsForUser_deactivateFirst db u hdb⟩

/-- Witness for C5 at a concrete input: user 7's index entry references a
client absent from the panel and the DB holds one active config; the
destroy route returns success and clears both. -/
theorem destroy_absent_or_stale_is_noop_success_witness :
    ((idxLookup [(7, "cidX")] 7).all
      (fun cid => !(["other"].contains cid))) = true ∧
    (activeConfigsForUser [⟨5, 7, 1, "pk", "sk", "10.8.0.2", "cfg", true, 0⟩]
      7).length ≤ 1 ∧
    ((destroy_dynamic_tunnel [⟨5, 7, 1, "pk", "sk", "10.8.0.2", "cfg", true, 0⟩]
        [(7, "cidX")] ["other"] true 7).httpOk = true ∧
      idxLookup (destroy_dynamic_tunnel
        [⟨5, 7, 1, "pk", "sk", "10.8.0.2", "cfg", true, 0⟩]
        [(7, "cidX")] ["other"] true 7).index 7 = none ∧
      activeConfigsForUser (destroy_dynamic_tunnel
        [⟨5, 7, 1, "pk", "sk", "10.8.0.2", "cfg", true, 0⟩]
        [(7, "cidX")] ["other"] true 7).db 7 = []) :=
  ⟨by decide, by decide,
    destroy_absent_or_stale_is_noop_success
      [⟨5, 7, 1, "pk", "sk", "10.8.0.2", "cfg", true, 0⟩]
      [(7, "cidX")] ["other"] true 7 (by decide) (by decide)⟩

/-- C9: a status read for a user whose index entry references a client id
absent from the panel's live client list reports absent and removes the
stale entry from the index; this happens inside `get_user_tunnel_status`
itself, on every status read. -/
theorem status_read_drops_stale_entry (idx : List (Nat × String))
    (clients : List Client) (u : Nat) (cid : String)
    (hidx : idxLookup idx u = some cid)
    (hstale : ∀ c ∈ clients, c.id ≠ cid) :
    (get_user_tunnel_status idx (some clients) u).hasTunnel = false ∧
    (get_user_tunnel_status idx (some clients) u).message
      = "Tunnel was removed externally" ∧
    idxLookup (get_user_tunnel_status idx (some clients) u).index u = none := by
  have hfind : clients.find? (fun c => c.id == cid) = none := by
    rw [List.find?_eq_none]
    intro c hc
    simp [hstale c hc]
  have hst : get_user_tunnel_status idx (some clients) u
      = ⟨false, none, "Tunnel was removed externally", idxErase idx u⟩ := by
    unfold get_user_tunnel_status
    rw [hidx]
    simp only [hfind]
  rw [hst]
  exact ⟨rfl, rfl, idxLookup_idxErase idx u⟩

/-- Witness for C9 at a concrete input: user 3's entry references "gone"
while the panel only lists "other"; the read reports absent and drops the
entry. -/
theorem status_read_drops_stale_entry_witness :
    idxLookup [(3, "gone")] 3 = some "gone" ∧
    (∀ c ∈ [(⟨"other", "n", true, "a", "k"⟩ : Client)], c.id ≠ "gone") ∧
    ((get_user_tunnel_status [(3, "gone")]
        (some [⟨"other", "n", true, "a", "k"⟩]) 3).hasTunnel = false ∧
      (get_user_tunnel_status [(3, "gone")]
        (some [⟨"other", "n", true, "a", "k"⟩]) 3).message
        = "Tunnel was removed externally" ∧
      idxLookup (get_user_tunnel_status [(3, "gone")]
        (some [⟨"other", "n", true, "a", "k"⟩]) 3).index 3 = none) :=
  ⟨by decide, by decide,
    status_read_drops_stale_entry [(3, "gone")]
      [⟨"other", "n", true, "a", "k"⟩] 3 "gone" (by decide) (by decide)⟩

/-- C10: when `create_client` succeeds with a client object but the
configuration fetch fails, `create_user_tunnel` deletes the created client
as compensation, returns failure, and leaves no index entry for the user
(assuming any pre-existing entry was not live on the panel, i.e. the run
reaches the create call at all). -/
theorem create_compensates_on_config_failure (idx : List (Nat × String))
    (sc : PanelScript) (u : Nat) (client : Client)
    (hcreate : sc.createOk = true)
    (hclient : sc.createClient = some client)
    (hconfig : sc.configResult = none)
    (hnotlive : ((idxLookup idx u).all (fun cid =>
      (sc.listResult.getD []).all (fun c => c.id != cid))) = true) :
    (create_user_tunnel idx sc u).ok = false ∧
    (create_user_tunnel idx sc u).deletedClients = [client.id] ∧
    idxLookup (create_user_tunnel idx sc u).index u = none := by
  unfold create_user_tunnel
  cases hidx : idxLookup idx u with
  | none =>
    simp only [hcreate, hclient, hconfig]
    exact ⟨rfl, rfl, hidx⟩
  | some cid =>
    rw [hidx] at hnotlive
    cases hlist : sc.listResult with
    | none =>
      simp only [hlist, hcreate, hclient, hconfig]
      exact ⟨rfl, rfl, idxLookup_idxErase idx u⟩
    | some clients =>
      rw [hlist] at hnotlive
      have hall : clients.all (fun c => c.id != cid) = true := by
        simpa using hnotlive
      have hany : clients.any (fun c => c.id == cid) = false := by
        rw [List.any_eq_false]
        intro c hc
        have hne := List.all_eq_true.mp hall c hc
        simp at hne ⊢
        exact hne
      simp only [hlist, hany, hcreate, hclient, hconfig]
      exact ⟨rfl, rfl, idxLookup_idxErase idx u⟩

/-- Witness for C10 at a concrete input: creation succeeds with client
"new1" and the config fetch fails; the operation fails, deletes "new1"
and adds no index entry for user 4. -/
theorem create_compensates_on_config_failure_witness :
    (⟨some [], true, some ⟨"new1", "n", true, "a", "k"⟩, none, none⟩ :
      PanelScript).createOk = true ∧
    ((create_user_tunnel []
        ⟨some [], true, some ⟨"new1", "n", true, "a", "k"⟩, none, none⟩ 4).ok
        = false ∧
      (create_user_tunnel []
        ⟨some [], true, some ⟨"new1", "n", true, "a", "k"⟩, none, none⟩
        4).deletedClients = ["new1"] ∧
      idxLookup (create_user_tunnel []
        ⟨some [], true, some ⟨"new1", "n", true, "a", "k"⟩, none, none⟩
        4).index 4 = none) :=
  ⟨rfl,
    create_compensates_on_config_failure []
      ⟨some [], true, some ⟨"new1", "n", true, "a", "k"⟩, none, none⟩ 4
      ⟨"new1", "n", true, "a", "k"⟩ rfl rfl rfl (by decide)⟩

/-- C2 counterexample: with an active VPNConfig row already in the DB for
(user 1, server 1) but no in-memory index entry, the dynamic create route
does not reject with ResourceConflict: it returns HTTP 200 and inserts a
second active row for the pair. -/
theorem create_ignores_existing_db_row :
    (create_dynamic_tunnel [⟨1, 1, 1, "p0", "k0", "10.8.0.9", "c0", true, 0⟩]
        [] ⟨some [], true, some ⟨"cid1", "user_u_1", true, "10.9.0.2", "PKNEW"⟩,
          some "cfg", none⟩ 1 5).httpStatus = 200 ∧
    (activeConfigsFor
      (create_dynamic_tunnel [⟨1, 1, 1, "p0", "k0", "10.8.0.9", "c0", true, 0⟩]
        [] ⟨some [], true, some ⟨"cid1", "user_u_1", true, "10.9.0.2", "PKNEW"⟩,
          some "cfg", none⟩ 1 5).db 1 1).length = 2 :=
  ⟨rfl, rfl⟩

/-- C2 amended: the route's duplicate check consults only the in-memory
index reconciled against the panel, never the DB.  When the index holds a
live panel client for the user, the route answers HTTP 200 reporting the
existing tunnel — not a ResourceConflict — and changes nothing; an active
DB row alone does not block creation (see the counterexample, where a
second active row is inserted). -/
theorem create_with_live_index_returns_success_not_conflict
    (db : List VPNRow) (idx : List (Nat × String)) (sc : PanelScript)
    (u : Nat) (now : Int) (cid : String) (clients : List Client)
    (hidx : idxLookup idx u = some cid)
    (hlist : sc.listResult = some clients)
    (hlive : ∃ c ∈ clients, c.id = cid) :
    (create_dynamic_tunnel db idx sc u now).httpStatus = 200 ∧
    (create_dynamic_tunnel db idx sc u now).alreadyExisting = true ∧
    (create_dynamic_tunnel db idx sc u now).db = db ∧
    (create_dynamic_tunnel db idx sc u now).index = idx := by
  obtain ⟨c, hc, hcid⟩ := hlive
  have hfind : ∃ c', clients.find? (fun x => x.id == cid) = some c' := by
    cases h : clients.find? (fun x => x.id == cid) with
    | some c' => exact ⟨c', rfl⟩
    | none =>
      have := List.find?_eq_none.mp h c hc
      simp [hcid] at this
  obtain ⟨c', hc'⟩ := hfind
  have hst : get_user_tunnel_status idx (some clients) u
      = ⟨true, some c', "Tunnel is active", idx⟩ := by
    unfold get_user_tunnel_status
    rw [hidx]
    simp only [hc']
  unfold create_dynamic_tunnel
  rw [hlist, hst]
  exact ⟨rfl, rfl, rfl, rfl⟩

/-- Witness for the C2 amended theorem at a concrete input: user 2's index
entry "live1" is present on the panel; the route reports the existing
tunnel with HTTP 200 and leaves DB and index unchanged. -/
theorem create_with_live_index_returns_success_not_conflict_witness :
    idxLookup [(2, "live1")] 2 = some "live1" ∧
    ((create_dynamic_tunnel [] [(2, "live1")]
        ⟨some [⟨"live1", "n", true, "a", "k"⟩], true, none, none, none⟩
        2 9).httpStatus = 200 ∧
      (create_dynamic_tunnel [] [(2, "live1")]
        ⟨some [⟨"live1", "n", true, "a", "k"⟩], true, none, none, none⟩
        2 9).alreadyExisting = true ∧
      (create_dynamic_tunnel [] [(2, "live1")]
        ⟨some [⟨"live1", "n", true, "a", "k"⟩], true, none, none, none⟩
        2 9).db = [] ∧
      (create_dynamic_tunnel [] [(2, "live1")]
        ⟨some [⟨"live1", "n", true, "a", "k"⟩], true, none, none, none⟩
        2 9).index = [(2, "live1")]) :=
  ⟨by decide,
    create_with_live_index_returns_success_not_conflict [] [(2, "live1")]
      ⟨some [⟨"live1", "n", true, "a", "k"⟩], true, none, none, none⟩
      2 9 "live1" [⟨"live1", "n", true, "a", "k"⟩] (by decide) rfl
      ⟨⟨"live1", "n", true, "a", "k"⟩, by decide, rfl⟩⟩

/-- Splitting a newline-free character list yields the single segment. -/
theorem splitLines_no_newline (l : List Char) (h : '\n' ∉ l) :
    splitLines l = [l] := by
  induction l with
  | nil => rfl
  | cons c cs ih =>
    have hc : ¬ (c = '\n') := fun hh => h (hh ▸ List.mem_cons_self c cs)
    have hcs : '\n' ∉ cs := fun hh => h (List.mem_cons_of_mem c hh)
    simp only [splitLines, if_neg hc, ih hcs]

/-- Splitting after a newline-free first segment peels it off. -/
theorem splitLines_append (l rest : List Char) (h : '\n' ∉ l) :
    splitLines (l ++ '\n' :: rest) = l :: splitLines rest := by
  induction l with
  | nil => simp [splitLines]
  | cons c cs ih =>
    have hc : ¬ (c = '\n') := fun hh => h (hh ▸ List.mem_cons_self c cs)
    have hcs : '\n' ∉ cs := fun hh => h (List.mem_cons_of_mem c hh)
    simp only [List.cons_append, splitLines, if_neg hc, List.append_eq, ih hcs]

/-- Splitting undoes joining for newline-free lines. -/
theorem splitLines_joinLines (L : List String)
    (h : ∀ s ∈ L, '\n' ∉ s.data) (hne : L ≠ []) :
    splitLines (joinLines L).data = L.map (fun s => s.data) := by
  induction L with
  | nil => cases hne rfl
  | cons a L ih =>
    cases L with
    | nil =>
      simpa [joinLines] using splitLines_no_newline a.data (h a (by simp))
    | cons b L' =>
      have hdata : (a ++ "\n" ++ joinLines (b :: L')).data
          = a.data ++ '\n' :: (joinLines (b :: L')).data := by
        rw [String.data_append, String.data_append,
          (rfl : ("\n").data = ['\n']), List.append_assoc]
        rfl
      show splitLines (a ++ "\n" ++ joinLines (b :: L')).data = _
      rw [hdata, splitLines_append _ _ (h a (by simp))]
      rw [ih (fun s hs => h s (by simp [hs])) (by simp)]
      rfl

/-- Dropping the length of a known first part of an append. -/
theorem drop_len_append (l1 l2 : List Char) (n : Nat) (h : l1.length = n) :
    (l1 ++ l2).drop n = l2 := by
  subst h; exact List.drop_left l1 l2

/-- Taking the length of a known first part of an append. -/
theorem take_len_append (l1 l2 : List Char) (n : Nat) (h : l1.length = n) :
    (l1 ++ l2).take n = l1 := by
  subst h; exact List.take_left l1 l2

/-- `takeWhile` stops exactly at the first failing element. -/
theorem takeWhile_all_append (p : Char → Bool) (l1 l2 : List Char) (a : Char)
    (h1 : ∀ c ∈ l1, p c = true) (ha : p a = false) :
    (l1 ++ a :: l2).takeWhile p = l1 := by
  induction l1 with
  | nil => simp [List.takeWhile, ha]
  | cons c cs ih =>
    have hc := h1 c (List.mem_cons_self c cs)
    simp only [List.cons_append, List.takeWhile, hc, List.append_eq]
    rw [ih (fun x hx => h1 x (List.mem_cons_of_mem c hx))]

/-- `dropWhile` drops exactly up to the first failing element. -/
theorem dropWhile_all_append (p : Char → Bool) (l1 l2 : List Char) (a : Char)
    (h1 : ∀ c ∈ l1, p c = true) (ha : p a = false) :
    (l1 ++ a :: l2).dropWhile p = a :: l2 := by
  induction l1 with
  | nil => simp [List.dropWhile, ha]
  | cons c cs ih =>
    have hc := h1 c (List.mem_cons_self c cs)
    simp only [List.cons_append, List.dropWhile, hc, List.append_eq]
    exact ih (fun x hx => h1 x (List.mem_cons_of_mem c hx))

/-- Reversing around a distinguished middle element. -/
theorem reverse_append_cons (l1 l2 : List Char) (a : Char) :
    (l1 ++ a :: l2).reverse = l2.reverse ++ a :: l1.reverse := by
  simp [List.reverse_append]

/-- The ten decimal digit characters round-trip through `digitVal10` and
are neither colons nor newlines. -/
theorem digit_char_props :
    ∀ d < 10, digitVal10 (digitChar10 d) = d ∧
      digitChar10 d ≠ ':' ∧ digitChar10 d ≠ '\n' := by decide

/-- The fuelled decimal digits agree with `Nat.digits 10`. -/
theorem decDigitsAux_eq (fuel : Nat) : ∀ n ≤ fuel,
    decDigitsAux fuel n = Nat.digits 10 n := by
  induction fuel with
  | zero =>
    intro n hn
    have h0 : n = 0 := Nat.le_zero.mp hn
    subst h0
    simp [decDigitsAux]
  | succ fuel ih =>
    intro n hn
    cases n with
    | zero => simp [decDigitsAux]
    | succ m =>
      have hdiv : (m + 1) / 10 < m + 1 := Nat.div_lt_self (Nat.succ_pos m) (by norm_num)
      rw [decDigitsAux, ih ((m + 1) / 10) (by omega),
        Nat.digits_def' (by norm_num : (1 : Nat) < 10) (Nat.succ_pos m)]

/-- `decDigits` agrees with `Nat.digits 10`. -/
theorem decDigits_eq (n : Nat) : decDigits n = Nat.digits 10 n :=
  decDigitsAux_eq n n le_rfl

/-- Every character of a rendered decimal is a digit character, and is
neither a colon nor a newline. -/
theorem natDecimal_chars (n : Nat) :
    ∀ c ∈ (natDecimal n).data, digitVal10 c < 10 ∧ c ≠ ':' ∧ c ≠ '\n' := by
  intro c hc
  unfold natDecimal at hc
  by_cases h0 : n = 0
  · rw [if_pos h0] at hc
    have : c = '0' := by simpa using hc
    subst this; decide
  · rw [if_neg h0] at hc
    have hc' : c ∈ (Nat.digits 10 n).reverse.map digitChar10 := by
      rw [← decDigits_eq]; exact hc
    obtain ⟨d, hd, rfl⟩ := List.mem_map.mp hc'
    have hd10 : d < 10 :=
      Nat.digits_lt_base (by norm_num) (List.mem_reverse.mp hd)
    exact ⟨by rw [(digit_char_props d hd10).1]; exact hd10,
      (digit_char_props d hd10).2⟩

/-- Parsing a rendered decimal recovers the number. -/
theorem parseNatDigits_natDecimal (n : Nat) :
    parseNatDigits (natDecimal n).data = some n := by
  by_cases h0 : n = 0
  · subst h0; decide
  · unfold natDecimal
    rw [if_neg h0]
    have hL : (String.mk ((decDigits n).reverse.map digitChar10)).data
        = (Nat.digits 10 n).reverse.map digitChar10 := by rw [decDigits_eq]
    rw [hL]
    have hDne : Nat.digits 10 n ≠ [] := Nat.digits_ne_nil_iff_ne_zero.mpr h0
    have hmem : ∀ c ∈ (Nat.digits 10 n).reverse.map digitChar10,
        digitVal10 c < 10 := by
      intro c hc
      obtain ⟨d, hd, rfl⟩ := List.mem_map.mp hc
      have hd10 : d < 10 :=
        Nat.digits_lt_base (by norm_num) (List.mem_reverse.mp hd)
      rw [(digit_char_props d hd10).1]; exact hd10
    unfold parseNatDigits
    have hempty : ((Nat.digits 10 n).reverse.map digitChar10).isEmpty = false := by
      rw [Bool.eq_false_iff]
      intro hcon
      rw [List.isEmpty_iff, List.map_eq_nil_iff, List.reverse_eq_nil_iff] at hcon
      exact hDne hcon
    rw [hempty]
    have hall : ((Nat.digits 10 n).reverse.map digitChar10).all
        (fun c => decide (digitVal10 c < 10)) = true := by
      rw [List.all_eq_true]
      intro c hc
      simpa using hmem c hc
    rw [hall]
    simp only [Bool.false_eq_true, if_false, if_true]
    have hval : (((Nat.digits 10 n).reverse.map digitChar10).map
        digitVal10).reverse = Nat.digits 10 n := by
      rw [List.map_map]
      have : (Nat.digits 10 n).reverse.map (digitVal10 ∘ digitChar10)
          = (Nat.digits 10 n).reverse.map id := by
        apply List.map_congr_left
        intro d hd
        have hd10 : d < 10 :=
          Nat.digits_lt_base (by norm_num) (List.mem_reverse.mp hd)
        exact (digit_char_props d hd10).1
      rw [this, List.map_id, List.reverse_reverse]
    rw [hval, Nat.ofDigits_digits]

/-- Newline-freedom is preserved by string append. -/
theorem noNL_append (s t : String) (hs : '\n' ∉ s.data) (ht : '\n' ∉ t.data) :
    '\n' ∉ (s ++ t).data := by
  rw [String.data_append]
  simp only [List.mem_append]
  rintro (h | h)
  · exact hs h
  · exact ht h

/-- C7: rendering the client configuration text from (privateKey,
allocatedIP, serverPublicKey, presharedKey, endpoint, port) and re-parsing
the rendered text recovers exactly the same six values, for newline-free
field values. -/
theorem config_roundtrip (pk ip spk psk ep : String) (port : Nat)
    (hpk : '\n' ∉ pk.data) (hip : '\n' ∉ ip.data) (hspk : '\n' ∉ spk.data)
    (hpsk : '\n' ∉ psk.data) (hep : '\n' ∉ ep.data) :
    parse_client_config (create_client_config pk ip spk psk ep port)
      = some (pk, ip, spk, psk, ep, port) := by
  have hnd : '\n' ∉ (natDecimal port).data := by
    intro h
    exact ((natDecimal_chars port '\n' h).2.2) rfl
  have hlines : ∀ s ∈ configLines pk ip spk psk ep port, '\n' ∉ s.data := by
    intro s hs
    simp only [configLines, List.mem_cons, List.not_mem_nil, or_false] at hs
    rcases hs with rfl | rfl | rfl | rfl | rfl | rfl | rfl | rfl | rfl | rfl | rfl | rfl
    · decide
    · exact noNL_append _ _ (by decide) hpk
    · exact noNL_append _ _ (noNL_append _ _ (by decide) hip) (by decide)
    · decide
    · decide
    · decide
    · exact noNL_append _ _ (by decide) hspk
    · exact noNL_append _ _ (by decide) hpsk
    · decide
    · decide
    · exact noNL_append _ _
        (noNL_append _ _ (noNL_append _ _ (by decide) hep) (by decide)) hnd
    · decide
  have hsplit : splitLines (create_client_config pk ip spk psk ep port).data
      = (configLines pk ip spk psk ep port).map (fun s => s.data) :=
    splitLines_joinLines _ hlines (by simp [configLines])
  have h1 : (("PrivateKey = " ++ pk).data).drop 13 = pk.data := by
    rw [String.data_append]
    exact drop_len_append _ _ _ rfl
  have h2 : (("Address = " ++ ip ++ "/24").data).drop 10
      = ip.data ++ ("/24").data := by
    rw [String.data_append, String.data_append, List.append_assoc]
    exact drop_len_append _ _ _ rfl
  have h2' : (ip.data ++ ("/24").data).take
      ((ip.data ++ ("/24").data).length - 3) = ip.data := by
    have h3 : ("/24").data.length = 3 := by decide
    rw [List.length_append, h3, Nat.add_sub_cancel]
    exact take_len_append _ _ _ rfl
  have h6 : (("PublicKey = " ++ spk).data).drop 12 = spk.data := by
    rw [String.data_append]
    exact drop_len_append _ _ _ rfl
  have h7 : (("PresharedKey = " ++ psk).data).drop 15 = psk.data := by
    rw [String.data_append]
    exact drop_len_append _ _ _ rfl
  have h10 : (("Endpoint = " ++ ep ++ ":" ++ natDecimal port).data).drop 11
      = ep.data ++ ':' :: (natDecimal port).data := by
    rw [String.data_append, String.data_append, String.data_append,
      List.append_assoc, List.append_assoc]
    have h4 : ("Endpoint = ").data.length = 11 := by decide
    rw [← h4, List.drop_left]
    rfl
  have hdigits : ∀ c ∈ ((natDecimal port).data).reverse, (c != ':') = true := by
    intro c hc
    have := (natDecimal_chars port c (List.mem_reverse.mp hc)).2.1
    simpa using this
  have hrev : (ep.data ++ ':' :: (natDecimal port).data).reverse
      = ((natDecimal port).data).reverse ++ ':' :: ep.data.reverse :=
    reverse_append_cons _ _ _
  have htake : (((natDecimal port).data).reverse ++ ':' :: ep.data.reverse).takeWhile
      (fun c => c != ':') = ((natDecimal port).data).reverse :=
    takeWhile_all_append _ _ _ _ hdigits (by decide)
  have hdrop : (((natDecimal port).data).reverse ++ ':' :: ep.data.reverse).dropWhile
      (fun c => c != ':') = ':' :: ep.data.reverse :=
    dropWhile_all_append _ _ _ _ hdigits (by decide)
  unfold parse_client_config
  rw [hsplit]
  simp only [configLines, List.map_cons, List.map_nil]
  rw [h1, h2, h2', h6, h7, h10, hrev, htake, hdrop]
  simp only [List.reverse_reverse, List.drop_succ_cons, List.drop_zero]
  rw [parseNatDigits_natDecimal]

/-- Witness for C7 at a concrete input: a full six-tuple of realistic
values survives the render/parse round trip. -/
theorem config_roundtrip_witness :
    ('\n' ∉ ("CPRIVKEY=").data ∧ '\n' ∉ ("10.8.0.2").data ∧
      '\n' ∉ ("SRVPUB=").data ∧ '\n' ∉ ("SRVPSK=").data ∧
      '\n' ∉ ("vpn.example.com").data) ∧
    parse_client_config
      (create_client_config "CPRIVKEY=" "10.8.0.2" "SRVPUB=" "SRVPSK="
        "vpn.example.com" 51820)
      = some ("CPRIVKEY=", "10.8.0.2", "SRVPUB=", "SRVPSK=",
        "vpn.example.com", 51820) :=
  ⟨⟨by decide, by decide, by decide, by decide, by decide⟩,
    config_roundtrip "CPRIVKEY=" "10.8.0.2" "SRVPUB=" "SRVPSK="
      "vpn.example.com" 51820 (by decide) (by decide) (by decide) (by decide)
      (by decide)⟩

end VpnBackend
